import Mathlib

/-!
Verification of the Docker container-engine adapter
(`src/repo2docker/docker.py`) against its natural-language specification.

The adapter is embedded shallowly:
* the argument lists handed to the external `docker` CLI are built by Lean
  functions mirroring the Python code line by line;
* the observable actions of an operation (temporary-directory creation and
  removal, archive extraction, file copies, subprocess invocations) are
  recorded as an explicit effect trace, and the credential file system is
  explicit state threaded through `push`/`docker_login`;
* Python generator semantics (the body of `build` runs only when the returned
  lazy sequence is consumed) are modelled by separating the call, which builds
  a suspended generator value, from consumption, which runs the body.
-/

namespace Repo2Docker

/-! ## Build argument assembly (`DockerEngine.build`, lines 99-153) -/

/-- Keyword arguments of `DockerEngine.build`.  `buildargs` and `labels` are
dicts, embedded as association lists in iteration order; `fileobj` records
whether an archive stream was supplied; `extra_buildx_build_args` is the
configured trait on the engine. -/
structure BuildParams where
  buildargs : List (String × String)
  cache_from : List String
  tag : String
  dockerfile : String
  fileobj : Bool
  path : String
  labels : List (String × String)
  platform : Option String
  extra_buildx_build_args : List String
  deriving DecidableEq

/-- The argument list assembled by `DockerEngine.build` (lines 116-139) before
the trailing context argument is appended: starting from
`docker buildx build --progress plain --load`, each `if` of the source appends
its flags by mutating `args`, here mirrored with folds over the dict items.
Python truthiness of the guards (`if buildargs:`, `if tag:', ...) is emptiness
of the dict, list or string, and `None` for `platform`. -/
def build_args_before_context (p : BuildParams) : List String :=
  let args := ["docker", "buildx", "build", "--progress", "plain", "--load"]
  let args := if p.buildargs.isEmpty then args else
    p.buildargs.foldl (fun a kv => a ++ ["--build-arg", kv.1 ++ "=" ++ kv.2]) args
  let args := if p.cache_from.isEmpty then args else
    p.cache_from.foldl (fun a cf => a ++ ["--cache-from", cf]) args
  let args := if p.dockerfile = "" then args else args ++ ["--file", p.dockerfile]
  let args := if p.tag = "" then args else args ++ ["--tag", p.tag]
  let args := if p.labels.isEmpty then args else
    p.labels.foldl (fun a kv => a ++ ["--label", kv.1 ++ "=" ++ kv.2]) args
  let args := match p.platform with
    | none => args
    | some pl => if pl = "" then args else args ++ ["--platform", pl]
  args ++ p.extra_buildx_build_args

/-- The build CLI grammar in the order the claim lists it: subcommand with
progress-mode and load-result flags, repeated build-arg, cache-from and label
flag pairs, then the file, tag and platform flags, the configured extra
arguments, and the context path last. -/
def spec_build_grammar (p : BuildParams) (context : String) : List String :=
  ["docker", "buildx", "build", "--progress", "plain", "--load"]
  ++ p.buildargs.flatMap (fun kv => ["--build-arg", kv.1 ++ "=" ++ kv.2])
  ++ p.cache_from.flatMap (fun cf => ["--cache-from", cf])
  ++ p.labels.flatMap (fun kv => ["--label", kv.1 ++ "=" ++ kv.2])
  ++ (if p.dockerfile = "" then [] else ["--file", p.dockerfile])
  ++ (if p.tag = "" then [] else ["--tag", p.tag])
  ++ (match p.platform with
      | none => []
      | some pl => if pl = "" then [] else ["--platform", pl])
  ++ p.extra_buildx_build_args ++ [context]

/-- The build CLI grammar in the order the source emits it: subcommand with
progress-mode and load-result flags, repeated build-arg and cache-from flag
pairs, the file and tag flags, repeated label flag pairs, the platform flag,
the configured extra arguments, and the context path last. -/
def build_grammar (p : BuildParams) (context : String) : List String :=
  ["docker", "buildx", "build", "--progress", "plain", "--load"]
  ++ p.buildargs.flatMap (fun kv => ["--build-arg", kv.1 ++ "=" ++ kv.2])
  ++ p.cache_from.flatMap (fun cf => ["--cache-from", cf])
  ++ (if p.dockerfile = "" then [] else ["--file", p.dockerfile])
  ++ (if p.tag = "" then [] else ["--tag", p.tag])
  ++ p.labels.flatMap (fun kv => ["--label", kv.1 ++ "=" ++ kv.2])
  ++ (match p.platform with
      | none => []
      | some pl => if pl = "" then [] else ["--platform", pl])
  ++ p.extra_buildx_build_args ++ [context]

/-! ## Effect traces for the subprocess-based operations -/

/-- One observable action of `build`, `push` or `docker_login`: temporary
directory creation/removal (`tempfile.TemporaryDirectory`), a file copy
(`shutil.copy2`), archive extraction (`tarfile.extractall`), a subprocess
running an argument list (`execute_cmd`), or the `docker login` subprocess,
which records the `DOCKER_CONFIG` value of the environment it is invoked
with. -/
inductive Effect where
  | mkTempDir (d : String)
  | removeTree (d : String)
  | copyFile (src dst : String)
  | extractArchive (dest : String)
  | exec (args : List String)
  | execLogin (username password registry : String) (dockerConfigOfChild : Option String)
  deriving DecidableEq

/-- The host environment one `build` consumption runs against:
whether `shutil.which("docker")` finds the CLI, the name of the fresh
temporary directory `tempfile.TemporaryDirectory` would allocate, whether
`tarfile.extractall` succeeds, and the exit code and captured output lines of
the `docker buildx build` subprocess. -/
structure BuildEnv where
  docker_on_path : Bool
  tmpdir : String
  extract_ok : Bool
  exit_code : Nat
  output : List String
  deriving DecidableEq

/-- How one consumed `build` terminates: all output yielded and subprocess
exit zero; the `RuntimeError("The docker commandline client must be
installed")` raised when the CLI is missing (the spec's `EngineUnavailable`
environment error); an extraction error from the archive stream; or the
error raised on a non-zero subprocess exit, carrying the captured output
(the spec's `BuildFailed`). -/
inductive BuildOutcome where
  | ok (lines : List String)
  | engineUnavailable
  | extractFailed
  | buildFailed (code : Nat) (lines : List String)
  deriving DecidableEq

/-- Modelled from the spec: `execute_cmd` (repo2docker/utils.py, not under
src/) yields each output line of the subprocess as produced and, when the
subprocess exits non-zero, raises an error carrying the captured output
("A non-zero exit from the underlying process surfaces as a `BuildFailed`
error carrying the captured output"). -/
def execute_cmd_outcome (e : BuildEnv) : BuildOutcome :=
  if e.exit_code = 0 then .ok e.output else .buildFailed e.exit_code e.output

/-- The body of `DockerEngine.build` (lines 114-153), run when the returned
generator is consumed: first the `shutil.which("docker")` check, raising
before any other action when the CLI is missing; with an archive stream, a
temporary directory is created, the archive extracted into it, the subprocess
run with the directory as trailing context argument, and the directory
removed again when the `with` block is left on any path (normal exhaustion,
extraction error, or the non-zero-exit error); without an archive stream the
subprocess runs with `path` as trailing argument. -/
def build_run (e : BuildEnv) (p : BuildParams) : List Effect × BuildOutcome :=
  if e.docker_on_path = false then
    ([], .engineUnavailable)
  else if p.fileobj then
    if e.extract_ok = false then
      ([.mkTempDir e.tmpdir, .removeTree e.tmpdir], .extractFailed)
    else
      ([.mkTempDir e.tmpdir, .extractArchive e.tmpdir,
        .exec (build_args_before_context p ++ [e.tmpdir]), .removeTree e.tmpdir],
       execute_cmd_outcome e)
  else
    ([.exec (build_args_before_context p ++ [p.path])], execute_cmd_outcome e)

/-- A suspended `build` generator: the Python frame created by calling the
generator function, holding the arguments and not yet having run any body
statement. -/
structure BuildGeneratorState where
  params : BuildParams
  deriving DecidableEq

/-- Calling `DockerEngine.build(...)`: because the body contains `yield from`
(lines 148 and 153), Python makes `build` a generator function, so the call
itself runs no body statement; it performs no observable action (empty effect
trace) and returns the suspended generator. -/
def build (p : BuildParams) : List Effect × BuildGeneratorState :=
  ([], { params := p })

/-- Consuming the generator returned by `build` against host environment `e`
runs the deferred body. -/
def build_consume (e : BuildEnv) (g : BuildGeneratorState) : List Effect × BuildOutcome :=
  build_run e g.params

/-- Whether directory `d` exists after the trace ran, starting from a state in
which it did not exist: `mkTempDir d` creates it, `removeTree d` deletes it. -/
def dir_alive (tr : List Effect) (d : String) : Bool :=
  tr.foldl (fun alive eff =>
    match eff with
    | .mkTempDir x => if x = d then true else alive
    | .removeTree x => if x = d then false else alive
    | _ => alive) false

/-! ## Registry login and push (`docker_login`, lines 163-191; `push`, lines 193-198) -/

/-- A file system fragment: the contents (bytes, as a string) stored at each
path, `none` when no file exists there. -/
def Fs : Type := String → Option String

/-- The `registry_credentials` keyword arguments `push` hands to
`docker_login`. -/
structure RegistryCredentials where
  username : String
  password : String
  registry : String
  deriving DecidableEq

/-- The process environment and temporary-directory allocation one
`docker_login` call runs in: the `DOCKER_CONFIG` environment variable (if
set), the home directory `os.path.expanduser("~")` resolves to, and the name
of the fresh directory `tempfile.TemporaryDirectory` allocates. -/
structure LoginEnv where
  docker_config_env : Option String
  home : String
  tmpdir : String
  deriving DecidableEq

/-- The pre-existing ambient credential file path computed at line 166:
`os.environ.get("DOCKER_CONFIG", os.path.expanduser("~/.docker/config.json"))`. -/
def ambient_dc_path (env : LoginEnv) : String :=
  match env.docker_config_env with
  | some v => v
  | none => env.home ++ "/.docker/config.json"

/-- Modelled from the spec: the external `docker login` subprocess persists
registry credentials in "a JSON configuration file at a conventional path
(overridable by an environment variable)" — the config file under the
`DOCKER_CONFIG` directory of the environment it is invoked with, or the
conventional per-user path when that variable is absent. -/
def login_write_target (dockerConfigOfChild : Option String) (home : String) : String :=
  match dockerConfigOfChild with
  | some dir => dir ++ "/config.json"
  | none => home ++ "/.docker/config.json"

/-- Modelled from the spec: the credential file contents after `docker login`
records an auth entry for the registry, merging with whatever the file
already held ("containing registry authentication"). -/
def login_write_contents (old : Option String) (c : RegistryCredentials) : String :=
  (match old with | some s => s | none => "\x7b\x7d")
    ++ "#auth:" ++ c.registry ++ ":" ++ c.username

/-- `DockerEngine.docker_login` (lines 163-191) around a body (the `with
self.docker_login(...)` block of `push`): creates a fresh temporary
directory, copies the pre-existing ambient credential file into it when it
exists (line 175), takes an unmodified copy of `os.environ` (line 177 — the
copy's `DOCKER_CONFIG` is left exactly as in the ambient environment), runs
the `docker login` subprocess with that environment, then the body, and on
leaving the `with` block removes the temporary directory and everything in
it. The returned state is the file system after all of that. -/
def docker_login_around (env : LoginEnv) (c : RegistryCredentials)
    (body : List Effect) (fs : Fs) : List Effect × Fs :=
  let dc_path := ambient_dc_path env
  let new_dc_path := env.tmpdir ++ "/config.json"
  let copy_trace : List Effect :=
    match fs dc_path with
    | some _ => [.copyFile dc_path new_dc_path]
    | none => []
  let fs₁ : Fs :=
    match fs dc_path with
    | some contents => fun p => if p = new_dc_path then some contents else fs p
    | none => fs
  let child_docker_config := env.docker_config_env
  let target := login_write_target child_docker_config env.home
  let fs₂ : Fs := fun p =>
    if p = target then some (login_write_contents (fs₁ target) c) else fs₁ p
  ([Effect.mkTempDir env.tmpdir] ++ copy_trace
     ++ [Effect.execLogin c.username c.password c.registry child_docker_config]
     ++ body ++ [Effect.removeTree env.tmpdir],
   fun p => if (env.tmpdir ++ "/").data.isPrefixOf p.data then none else fs₂ p)

/-- `DockerEngine.push` (lines 193-198): with configured registry credentials
the push subprocess runs inside `docker_login`; otherwise a plain
`docker push` subprocess runs with no other action. -/
def push (creds : Option RegistryCredentials) (env : LoginEnv)
    (image_spec : String) (fs : Fs) : List Effect × Fs :=
  match creds with
  | some c => docker_login_around env c [.exec ["docker", "push", image_spec]] fs
  | none => ([.exec ["docker", "push", image_spec]], fs)

/-- The argument lists of the `execute_cmd` subprocess invocations recorded
in a trace (the `docker login` subprocess is recorded separately as
`execLogin`). -/
def exec_args (tr : List Effect) : List (List String) :=
  tr.filterMap (fun e => match e with | .exec args => some args | _ => none)

/-! ## Log timestamp truncation (`DockerContainer.logs`, lines 29-37) -/

/-- Python `int()` applied to a real-valued POSIX timestamp: truncation toward
zero. -/
def py_int (q : ℚ) : ℤ := if 0 ≤ q then ⌊q⌋ else ⌈q⌉

/-- The `since` truncation at line 36, `int(parse_date(since).timestamp())`,
acting on the POSIX timestamp value (seconds, with sub-second fraction) that
the parsed calendar string denotes. -/
def logs_since (ts : ℚ) : ℤ := py_int ts

/-- The request `DockerContainer.logs` forwards to the engine. -/
structure LogsRequest where
  stream : Bool
  timestamps : Bool
  since : Option ℤ
  deriving DecidableEq

/-- `DockerContainer.logs` (lines 29-37): forwards `stream` and `timestamps`
unchanged and truncates a supplied `since` timestamp to whole seconds;
`since=None` is forwarded as-is. -/
def logs (stream timestamps : Bool) (since : Option ℚ) : LogsRequest :=
  { stream := stream, timestamps := timestamps, since := since.map logs_since }

/-! ## Image inspection (`DockerEngine.inspect_image`, lines 159-161) -/

/-- The record the docker-py API client returns for an image that resolves:
its repo tags and its configuration mapping. -/
structure ImageRecord where
  repoTags : List String
  config : List (String × String)
  deriving DecidableEq

/-- Modelled from the spec: the generic `Image` value object of
repo2docker/engine.py (not under src/) — "identifier set of tags (ordered
sequence of strings), optional configuration mapping". -/
structure Image where
  tags : List String
  config : Option (List (String × String))
  deriving DecidableEq

/-- The error raised by the docker-py API client when an image reference does
not resolve, propagated unchanged by `inspect_image`. -/
inductive InspectError where
  | imageNotFound
  deriving DecidableEq

/-- `DockerEngine.inspect_image` (lines 159-161): asks the API client for the
record of the named image; when the reference does not resolve the client
raises `ImageNotFound`, which propagates; otherwise the returned `Image`
carries the record's tags and its configuration. -/
def inspect_image (apiclient : String → Option ImageRecord) (image : String) :
    Except InspectError Image :=
  match apiclient image with
  | none => .error .imageNotFound
  | some r => .ok { tags := r.repoTags, config := some r.config }

/-! ## Containers (`DockerEngine.run`, lines 200-224; `DockerContainer`, lines 22-57) -/

/-- The cached attributes snapshot of a docker-py container object: the
`State.Status` and `State.ExitCode` entries of `attrs`. -/
structure ContainerAttrs where
  stateStatus : String
  stateExitCode : ℤ
  deriving DecidableEq

/-- A `DockerContainer` handle: the wrapped docker-py container, holding the
external container's identifier and the last-fetched attributes snapshot. -/
structure DockerContainer where
  id : String
  attrs : ContainerAttrs
  deriving DecidableEq

/-- The request `DockerEngine.run` hands to `client.containers.run`. -/
structure RunRequest where
  image : String
  command : Option (List String)
  environment : List String
  detach : Bool
  ports : List (Nat × Nat)
  publish_all_ports : Bool
  remove : Bool
  volumes : List (String × String)
  deriving DecidableEq

/-- Keyword arguments of `DockerEngine.run`. -/
structure RunArgs where
  command : Option (List String)
  environment : Option (List String)
  ports : Option (List (Nat × Nat))
  publish_all_ports : Bool
  remove : Bool
  volumes : Option (List (String × String))
  deriving DecidableEq

/-- The request built by `DockerEngine.run` (lines 213-223): defaults filled
exactly as in the source (`environment or []`, `ports or {}`,
`volumes or {}`), with `detach=True` hard-coded. -/
def run_request (image_spec : String) (a : RunArgs) : RunRequest :=
  { image := image_spec,
    command := a.command,
    environment := a.environment.getD [],
    detach := true,
    ports := a.ports.getD [],
    publish_all_ports := a.publish_all_ports,
    remove := a.remove,
    volumes := a.volumes.getD [] }

/-- The external engine as the adapter sees it: starting a container from a
request yields a handle; waiting on an identifier yields the exit status;
inspecting an identifier yields fresh attributes. -/
structure EngineWorld where
  create : RunRequest → DockerContainer
  waitExit : String → ℤ
  inspect : String → ContainerAttrs

/-- `DockerEngine.run` (lines 200-224): builds the request, has the engine
start the container, and returns the wrapped handle the client produced —
one engine call, then an immediate return of the handle. -/
def run (w : EngineWorld) (image_spec : String) (a : RunArgs) : DockerContainer :=
  w.create (run_request image_spec a)

/-- `DockerContainer.wait` (lines 48-49): forwards to the engine's wait on the
handle's identifier, which blocks until the container exits and returns its
exit status. -/
def wait (w : EngineWorld) (c : DockerContainer) : ℤ :=
  w.waitExit c.id

/-- One call against the engine API made by a container-handle method. -/
inductive ApiCall where
  | inspectContainer (id : String)
  deriving DecidableEq

/-- The `exitcode` accessor (lines 51-53) as an observable step: it reads
`self._c.attrs["State"]["ExitCode"]` from the cached snapshot, leaves the
handle unchanged and makes no engine call — the engine world is never
consulted. -/
def exitcode_op (_w : EngineWorld) (c : DockerContainer) :
    ℤ × DockerContainer × List ApiCall :=
  (c.attrs.stateExitCode, c, [])

/-- The `status` accessor (lines 55-57) as an observable step: it forwards to
the docker-py `status` property, a read of the `State.Status` entry of the
cached snapshot; the handle is unchanged and no engine call is made. -/
def status_op (_w : EngineWorld) (c : DockerContainer) :
    String × DockerContainer × List ApiCall :=
  (c.attrs.stateStatus, c, [])

/-- `DockerContainer.reload` (lines 26-27) as an observable step: one engine
call that re-fetches the attributes snapshot. -/
def reload_op (w : EngineWorld) (c : DockerContainer) :
    DockerContainer × List ApiCall :=
  ({ c with attrs := w.inspect c.id }, [.inspectContainer c.id])

/-! ## Concrete inputs used by closed theorems -/

/-- A concrete set of build keyword arguments with an archive stream. -/
def sample_params : BuildParams :=
  { buildargs := [("FOO", "bar")], cache_from := ["type=registry"], tag := "demo:1",
    dockerfile := "", fileobj := true, path := "", labels := [], platform := none,
    extra_buildx_build_args := [] }

/-- A host whose `docker buildx build` subprocess exits non-zero. -/
def c3_env : BuildEnv :=
  { docker_on_path := true, tmpdir := "/tmp/extract1", extract_ok := true,
    exit_code := 1, output := ["ERROR: failed to solve"] }

/-- A host on which `shutil.which("docker")` finds nothing. -/
def c10_env : BuildEnv :=
  { docker_on_path := false, tmpdir := "/tmp/t", extract_ok := true,
    exit_code := 0, output := [] }

/-- A host with the docker CLI present and a zero-exit subprocess. -/
def c9_env : BuildEnv :=
  { docker_on_path := true, tmpdir := "/tmp/extract2", extract_ok := true,
    exit_code := 0, output := ["ok"] }

/-- Build keyword arguments supplying both a dockerfile and one label. -/
def c7_params : BuildParams :=
  { buildargs := [], cache_from := [], tag := "", dockerfile := "Dockerfile.custom",
    fileobj := false, path := "/ctx", labels := [("maintainer", "jo")], platform := none,
    extra_buildx_build_args := [] }

/-- A process environment with `DOCKER_CONFIG` unset. -/
def c1_env : LoginEnv :=
  { docker_config_env := none, home := "/home/user", tmpdir := "/tmp/dcfg123" }

/-- Configured registry credentials. -/
def c1_creds : RegistryCredentials :=
  { username := "alice", password := "secret", registry := "reg.example.com" }

/-- A pre-existing ambient credential file with known contents and no other
files. -/
def c1_fs : Fs := fun p =>
  if p = "/home/user/.docker/config.json" then some "OLDCREDS" else none

/-- An API client view with exactly one image. -/
def c5_api : String → Option ImageRecord := fun s =>
  if s = "demo:1" then some { repoTags := ["demo:1"], config := [("Cmd", "jupyter")] }
  else none

/-! ## Helper lemmas -/

theorem foldl_append_eq {α β : Type} (f : α → List β) :
    ∀ (l : List α) (init : List β),
      l.foldl (fun a x => a ++ f x) init = init ++ l.flatMap f := by
  intro l
  induction l with
  | nil => intro init; simp
  | cons x xs ih => intro init; simp [ih, List.append_assoc]

theorem ite_isEmpty_foldl {α β : Type} (f : α → List β) (l : List α) (init : List β) :
    (if l.isEmpty then init else l.foldl (fun a x => a ++ f x) init)
      = init ++ l.flatMap f := by
  cases l with
  | nil => simp
  | cons x xs => simp [foldl_append_eq]

theorem build_args_only_fields (p q : BuildParams)
    (h1 : p.buildargs = q.buildargs) (h2 : p.cache_from = q.cache_from)
    (h3 : p.tag = q.tag) (h4 : p.dockerfile = q.dockerfile)
    (h5 : p.labels = q.labels) (h6 : p.platform = q.platform)
    (h7 : p.extra_buildx_build_args = q.extra_buildx_build_args) :
    build_args_before_context p = build_args_before_context q := by
  cases p; cases q
  simp only at h1 h2 h3 h4 h5 h6 h7
  subst h1 h2 h3 h4 h5 h6 h7
  rfl

theorem py_int_intCast (n : ℤ) : py_int (n : ℚ) = n := by
  by_cases h : 0 ≤ n
  · simp [py_int, Int.cast_nonneg.mpr h]
  · have h' : ¬ (0 : ℚ) ≤ (n : ℚ) := by exact_mod_cast h
    simp [py_int, h']

/-! ## Claim theorems -/

/-- C1: the claim says a `push` with configured credentials leaves the
pre-existing ambient credential file byte-for-byte unchanged, the login
session operating only on the temporary isolated copy.  The code violates
this: `docker_login` copies the ambient file into the fresh temporary
directory but then passes an UNMODIFIED copy of `os.environ` to the
`docker login` subprocess — `DOCKER_CONFIG` is never pointed at the copy —
so the login writes its auth entry into the ambient file itself.  Evaluated
at a concrete state: the ambient file's contents change, and the recorded
login subprocess runs with the ambient (un-overridden) `DOCKER_CONFIG`. -/
theorem push_mutates_ambient_credential_file :
    (push (some c1_creds) c1_env "reg.example.com/img:1" c1_fs).2
        "/home/user/.docker/config.json"
      = some "OLDCREDS#auth:reg.example.com:alice" ∧
    (push (some c1_creds) c1_env "reg.example.com/img:1" c1_fs).2
        "/home/user/.docker/config.json"
      ≠ c1_fs "/home/user/.docker/config.json" ∧
    Effect.execLogin "alice" "secret" "reg.example.com" none
      ∈ (push (some c1_creds) c1_env "reg.example.com/img:1" c1_fs).1 := by
  refine ⟨by decide, by decide, by decide⟩

/-- C2: consuming a `build` on a host where the docker CLI is absent raises
the environment error (modelling `RuntimeError("The docker commandline
client must be installed")`, the spec's `EngineUnavailable` kind, a distinct
outcome from `buildFailed`) and produces an empty effect trace — in
particular no subprocess invocation. -/
theorem build_requires_docker_cli : ∀ (e : BuildEnv) (p : BuildParams),
    e.docker_on_path = false →
    (build_run e p).2 = BuildOutcome.engineUnavailable ∧ (build_run e p).1 = [] := by
  intro e p h
  simp [build_run, h]

/-- Witness for C2 at a concrete host and concrete build arguments. -/
theorem build_requires_docker_cli_witness :
    (build_run c10_env sample_params).2 = BuildOutcome.engineUnavailable ∧
    (build_run c10_env sample_params).1 = [] :=
  build_requires_docker_cli c10_env sample_params rfl

/-- C3: a `build` supplied with an archive stream extracts into a scoped
temporary directory and the directory is gone on every exit path: on the
trace of any consumption, `dir_alive` is false at the end (covering normal
exhaustion, extraction failure, non-zero subprocess exit and the missing-CLI
path, where it is never created); moreover, on the non-error path the trace
shows extraction strictly before the subprocess and removal strictly
after. -/
theorem build_tempdir_released_on_all_paths : ∀ (e : BuildEnv) (p : BuildParams),
    p.fileobj = true →
    dir_alive (build_run e p).1 e.tmpdir = false ∧
    (e.docker_on_path = true → e.extract_ok = true →
      (build_run e p).1 = [.mkTempDir e.tmpdir, .extractArchive e.tmpdir,
        .exec (build_args_before_context p ++ [e.tmpdir]), .removeTree e.tmpdir]) := by
  intro e p hp
  cases hd : e.docker_on_path <;> cases hx : e.extract_ok <;>
    simp [build_run, dir_alive, hp, hd, hx]

/-- Witness for C3 at a concrete host whose subprocess exits non-zero: the
outcome is the build failure and the extraction directory is not alive after
the trace. -/
theorem build_tempdir_released_on_all_paths_witness :
    dir_alive (build_run c3_env sample_params).1 "/tmp/extract1" = false ∧
    (build_run c3_env sample_params).1
      = [.mkTempDir "/tmp/extract1", .extractArchive "/tmp/extract1",
         .exec (build_args_before_context sample_params ++ ["/tmp/extract1"]),
         .removeTree "/tmp/extract1"] ∧
    (build_run c3_env sample_params).2 = BuildOutcome.buildFailed 1 ["ERROR: failed to solve"] :=
  ⟨(build_tempdir_released_on_all_paths c3_env sample_params rfl).1,
   (build_tempdir_released_on_all_paths c3_env sample_params rfl).2 rfl rfl,
   rfl⟩

/-- C4 (counterexample): two instants inside the same whole second (the
second starting at 1969-12-31T23:59:59Z, POSIX values -1 and -1/2 — their
floors agree) truncate to different integers under the `int()` truncation of
`logs`, because Python `int()` truncates toward zero. -/
theorem logs_since_same_second_counterexample :
    ⌊(-1 : ℚ)⌋ = ⌊(-1/2 : ℚ)⌋ ∧ logs_since (-1) ≠ logs_since (-1/2) := by
  constructor
  · norm_num
  · have h1 : logs_since (-1) = -1 := by
      norm_num [logs_since, py_int, Int.ceil_neg, Int.floor_one]
    have h2 : logs_since (-1/2) = 0 := by norm_num [logs_since, py_int]
    rw [h1, h2]
    decide

/-- C4 (amended): for timestamps denoting instants at or after the Unix
epoch (non-negative POSIX value), any two within the same whole second
truncate to the same integer-second value; and truncation is idempotent for
every timestamp — truncating the instant denoted by an already-truncated
value yields the same integer. -/
theorem logs_since_truncation_amended :
    (∀ q₁ q₂ : ℚ, 0 ≤ q₁ → 0 ≤ q₂ → ⌊q₁⌋ = ⌊q₂⌋ → logs_since q₁ = logs_since q₂) ∧
    (∀ q : ℚ, logs_since ((logs_since q : ℤ) : ℚ) = logs_since q) := by
  constructor
  · intro q₁ q₂ h₁ h₂ hf
    simp only [logs_since, py_int, if_pos h₁, if_pos h₂]
    exact hf
  · intro q
    exact py_int_intCast (logs_since q)

/-- Witness for C4 (amended) at concrete timestamps: 0.5s and 0.25s lie in
the same whole second and truncate equally, and truncation of -1.5s is
idempotent. -/
theorem logs_since_truncation_amended_witness :
    logs_since (1/2) = logs_since (1/4) ∧
    logs_since ((logs_since (-3/2) : ℤ) : ℚ) = logs_since (-3/2) :=
  ⟨logs_since_truncation_amended.1 (1/2) (1/4) (by norm_num) (by norm_num) (by norm_num),
   logs_since_truncation_amended.2 (-3/2)⟩

/-- C5: `inspect_image` on a reference the API client cannot resolve yields
exactly the `ImageNotFound` error and never an `Image`; on a reference that
resolves it yields the `Image` carrying both the record's tags and its
configuration, and every `Image` it ever returns has the configuration
populated. -/
theorem inspect_image_not_found_or_full : ∀ (api : String → Option ImageRecord) (ref : String),
    (api ref = none → inspect_image api ref = .error .imageNotFound) ∧
    (∀ r, api ref = some r →
      inspect_image api ref = .ok { tags := r.repoTags, config := some r.config }) ∧
    (∀ img, inspect_image api ref = .ok img → img.config.isSome = true) := by
  intro api ref
  refine ⟨fun h => by simp [inspect_image, h], fun r h => by simp [inspect_image, h], ?_⟩
  intro img h
  unfold inspect_image at h
  cases hr : api ref with
  | none => rw [hr] at h; exact absurd h (by simp)
  | some r => rw [hr] at h; cases h; rfl

/-- Witness for C5 at a concrete one-image client: a missing reference gives
the not-found error, the present reference gives the fully populated
image. -/
theorem inspect_image_not_found_or_full_witness :
    inspect_image c5_api "missing:latest" = .error .imageNotFound ∧
    inspect_image c5_api "demo:1"
      = .ok { tags := ["demo:1"], config := some [("Cmd", "jupyter")] } :=
  ⟨(inspect_image_not_found_or_full c5_api "missing:latest").1 (by decide),
   (inspect_image_not_found_or_full c5_api "demo:1").2.1
     { repoTags := ["demo:1"], config := [("Cmd", "jupyter")] } (by decide)⟩

/-- C6: `run` builds its request with `detach := true` hard-coded, makes the
single engine call starting the container and returns the engine's handle
unchanged — it does not consult the wait operation; the exit status is
obtained only by a later `wait`, which forwards to the engine's blocking
wait on the handle's identifier. -/
theorem run_detached_returns_handle : ∀ (w : EngineWorld) (image_spec : String) (a : RunArgs),
    (run_request image_spec a).detach = true ∧
    run w image_spec a = w.create (run_request image_spec a) ∧
    (∀ c : DockerContainer, wait w c = w.waitExit c.id) :=
  fun _ _ _ => ⟨rfl, rfl, fun _ => rfl⟩

/-- C7 (counterexample): on a build call supplying both a dockerfile and one
label, the argument list the code emits differs from the grammar in the
order the claim states it (label flag pairs before the file flag): the code
places `--file` before `--label`. -/
theorem build_grammar_claimed_order_counterexample :
    build_args_before_context c7_params ++ ["/ctx"] ≠ spec_build_grammar c7_params "/ctx" := by
  decide

/-- C7 (amended): for every build invocation the argument list follows the
fixed grammar in order — the build subcommand with the progress-mode and
load-result flags first, one repeated flag pair per build-arg and per
cache-from source, the file and tag flags when supplied, one repeated flag
pair per label, the platform flag when supplied, the configured extra
arguments, and the context path strictly last — and `push` invokes a plain
push with only the image reference: without credentials that is the whole
trace, and for every credentials option (configured or not) the
`execute_cmd` subprocess invocations of the push trace are exactly the one
plain `docker push <reference>` (with credentials it runs inside
`docker_login`, whose login subprocess is a separate recorded action). -/
theorem build_push_cli_grammar : ∀ (p : BuildParams) (ctx s : String)
    (creds : Option RegistryCredentials) (env : LoginEnv) (fs : Fs),
    build_args_before_context p ++ [ctx] = build_grammar p ctx ∧
    (build_args_before_context p ++ [ctx]).getLast? = some ctx ∧
    (push none env s fs).1 = [.exec ["docker", "push", s]] ∧
    exec_args (push creds env s fs).1 = [["docker", "push", s]] := by
  intro p ctx s creds env fs
  refine ⟨?_, by simp [List.getLast?_concat], rfl, ?_⟩
  case refine_2 =>
    cases creds with
    | none => rfl
    | some c =>
      simp only [push, docker_login_around, exec_args]
      cases h : fs (ambient_dc_path env) <;> simp [h, List.filterMap]
  unfold build_args_before_context build_grammar
  simp only [ite_isEmpty_foldl]
  by_cases hd : p.dockerfile = "" <;> by_cases ht : p.tag = "" <;>
    rcases hpl : p.platform with _ | pl <;>
    simp [hd, ht, List.append_assoc]
  all_goals (by_cases hp0 : pl = "" <;> simp [hp0, List.append_assoc])

/-- C8: the `exitcode` and `status` accessors are pure reads of the cached
attributes snapshot: they make no engine call, leave the handle unchanged,
and their value is independent of the engine world — identical for any two
worlds — until a `reload`, which is the single engine call that refreshes
the snapshot. -/
theorem container_accessors_pure_reads : ∀ (w w' : EngineWorld) (c : DockerContainer),
    exitcode_op w c = (c.attrs.stateExitCode, c, []) ∧
    status_op w c = (c.attrs.stateStatus, c, []) ∧
    exitcode_op w c = exitcode_op w' c ∧
    status_op w c = status_op w' c ∧
    (reload_op w c).1.attrs = w.inspect c.id ∧
    (reload_op w c).2 = [ApiCall.inspectContainer c.id] :=
  fun _ _ _ => ⟨rfl, rfl, rfl, rfl, rfl, rfl⟩

/-- C9: when an archive stream is supplied the build is entirely independent
of the `path` argument (the whole observable behavior is unchanged under any
replacement of `path`), the subprocess context argument being the extraction
directory; `path` becomes the trailing context argument exactly when no
archive stream is given. -/
theorem build_fileobj_overrides_path : ∀ (e : BuildEnv) (p : BuildParams) (s₁ s₂ : String),
    p.fileobj = true →
    (build_run e { p with path := s₁ } = build_run e { p with path := s₂ }) ∧
    (e.docker_on_path = true → e.extract_ok = true →
      (build_run e p).1 = [.mkTempDir e.tmpdir, .extractArchive e.tmpdir,
        .exec (build_args_before_context p ++ [e.tmpdir]), .removeTree e.tmpdir]) ∧
    (∀ q : BuildParams, q.fileobj = false → e.docker_on_path = true →
      (build_run e q).1 = [.exec (build_args_before_context q ++ [q.path])]) := by
  intro e p s₁ s₂ hp
  refine ⟨?_, ?_, ?_⟩
  · have ha : build_args_before_context { p with path := s₁, fileobj := true }
        = build_args_before_context { p with path := s₂, fileobj := true } :=
      build_args_only_fields _ _ rfl rfl rfl rfl rfl rfl rfl
    simp only [build_run, hp, ite_true]
    rw [ha]
  · intro hd hx; simp [build_run, hp, hd, hx]
  · intro q hq hd; simp [build_run, hq, hd]

/-- Witness for C9 at a concrete host and concrete arguments: two different
`path` values leave the build unchanged, the context argument is the
extraction directory, and without an archive stream the trailing argument is
the supplied path. -/
theorem build_fileobj_overrides_path_witness :
    (build_run c9_env { sample_params with path := "/ignored" }
      = build_run c9_env { sample_params with path := "/also-ignored" }) ∧
    (build_run c9_env sample_params).1
      = [.mkTempDir "/tmp/extract2", .extractArchive "/tmp/extract2",
         .exec (build_args_before_context sample_params ++ ["/tmp/extract2"]),
         .removeTree "/tmp/extract2"] ∧
    (build_run c9_env { sample_params with fileobj := false, path := "/ctx" }).1
      = [.exec (build_args_before_context
          { sample_params with fileobj := false, path := "/ctx" } ++ ["/ctx"])] :=
  ⟨(build_fileobj_overrides_path c9_env sample_params "/ignored" "/also-ignored" rfl).1,
   (build_fileobj_overrides_path c9_env sample_params "/ignored" "/also-ignored" rfl).2.1 rfl rfl,
   (build_fileobj_overrides_path c9_env sample_params "/ignored" "/also-ignored" rfl).2.2
     { sample_params with fileobj := false, path := "/ctx" } rfl rfl⟩

/-- C10: calling `build` performs no observable action — the effect trace of
the call is empty, the CLI presence check, extraction and subprocess all
living in the suspended generator — and the behavior, including the
missing-CLI error, is decided only against the host environment at
consumption time: the very same suspended generator errors under a
CLI-less host and runs the body otherwise. -/
theorem build_call_defers_all_effects : ∀ (p : BuildParams),
    (build p).1 = [] ∧
    (∀ e : BuildEnv, build_consume e (build p).2 = build_run e p) ∧
    (∀ e : BuildEnv, e.docker_on_path = false →
      build_consume e (build p).2 = ([], BuildOutcome.engineUnavailable)) := by
  intro p
  refine ⟨rfl, fun e => rfl, fun e he => ?_⟩
  simp [build_consume, build_run, he]

/-- Witness for C10 at concrete build arguments and a concrete CLI-less
host. -/
theorem build_call_defers_all_effects_witness :
    (build sample_params).1 = [] ∧
    build_consume c10_env (build sample_params).2 = ([], BuildOutcome.engineUnavailable) :=
  ⟨(build_call_defers_all_effects sample_params).1,
   (build_call_defers_all_effects sample_params).2.2 c10_env rfl⟩

end Repo2Docker
